import Mathlib

/-!
Verification of the Botoferma user-account / lock service.

The development shallowly embeds the account store and the operations of
`app/users/crud.py`, `app/users/router.py` and `app/users/auth.py`:

* an account row (`User`) mirrors the columns of the `users` table in
  `app/users/models.py`; timestamps and UUIDs are modelled as `Nat`,
  the nullable `locktime` column as `Option Nat`;
* the store is the list of rows; queries are `List.find?`, an `UPDATE`
  of one row keyed by `id` is a `List.map` that rewrites the matching row;
* every fallible operation returns an `Option` or an explicit result
  inductive, paired with the post-state of the store.

The external collaborators (bcrypt hasher, JWT codec) are parameters of the
definitions that consume them, exactly as the spec treats them as consumed
contracts.
-/

namespace Botoferma

/-- One row of the `users` table (`app/users/models.py`, class `User`).
`password` holds the credential hash; `locktime` is the nullable lock
timestamp (`None` ⇔ the account is free). -/
structure User where
  id : Nat
  created_at : Nat
  login : String
  password : String
  project_id : Nat
  env : String
  domain : String
  locktime : Option Nat
deriving DecidableEq, Repr

/-- The persistent table of accounts: the only shared mutable state. -/
abbrev Store := List User

/-- Registration payload (`app/users/schemas.py`, class `UserCreate`). -/
structure UserCreate where
  login : String
  project_id : Nat
  env : String
  domain : String
  password : String
deriving DecidableEq, Repr

/-- `crud.get_user_by_login`: `SELECT * FROM users WHERE login = ?`,
`scalar_one_or_none`. -/
def get_user_by_login (s : Store) (login : String) : Option User :=
  s.find? (fun u => u.login == login)

/-- `crud.get_user_by_id`: `SELECT * FROM users WHERE id = ?`,
`scalar_one_or_none`. -/
def get_user_by_id (s : Store) (user_id : Nat) : Option User :=
  s.find? (fun u => u.id == user_id)

/-- `crud.get_all_users`: `SELECT * FROM users`. -/
def get_all_users (s : Store) : List User := s

/-- The committed `UPDATE users SET locktime = ? WHERE id = ?`: rewrites the
`locktime` column of the row keyed by `id` and nothing else. -/
def setLocktime (s : Store) (user_id : Nat) (v : Option Nat) : Store :=
  s.map (fun u => if u.id == user_id then { u with locktime := v } else u)

/-- `crud.create_user` combined with the unique index on `users.login`
declared in `app/users/models.py` (`unique=True`): inserting a row whose
login already exists raises `IntegrityError`, modelled as `none`; otherwise
the new row (credential hashed by the external hasher, `locktime` initially
null) is appended and returned. -/
def create_user (hash : String → String) (s : Store) (ud : UserCreate)
    (new_id : Nat) (now : Nat) : Option (User × Store) :=
  if (get_user_by_login s ud.login).isSome then
    none
  else
    let u : User :=
      { id := new_id, created_at := now, login := ud.login
        password := hash ud.password, project_id := ud.project_id
        env := ud.env, domain := ud.domain, locktime := none }
    some (u, s ++ [u])

/-- First half of `crud.acquire_lock`, up to the first `await` boundary:
`user = await get_user_by_id(session, user_id)`.  The value read here is the
one the second half checks — the check is not re-run at commit time. -/
def acquire_lock_read (s : Store) (user_id : Nat) : Option User :=
  get_user_by_id s user_id

/-- Second half of `crud.acquire_lock`, from the `locktime` check to the
committed write: `if user.locktime is not None: return None;
user.locktime = datetime.utcnow(); ...; await session.commit()`.
`u` is the row object fetched by `acquire_lock_read`; the check inspects
that in-memory object, while the commit applies to the current store. -/
def acquire_lock_commit (s : Store) (u : User) (now : Nat) :
    Option User × Store :=
  if u.locktime.isSome then
    (none, s)
  else
    (some { u with locktime := some now }, setLocktime s u.id (some now))

/-- `crud.acquire_lock` run without interference: the read immediately
followed by the check-and-commit. -/
def acquire_lock (s : Store) (user_id : Nat) (now : Nat) :
    Option User × Store :=
  match acquire_lock_read s user_id with
  | none => (none, s)
  | some u => acquire_lock_commit s u now

/-- `crud.release_lock`: fetch by id; if absent return `None`; otherwise
unconditionally clear `locktime` and commit. -/
def release_lock (s : Store) (user_id : Nat) : Option User × Store :=
  match get_user_by_id s user_id with
  | none => (none, s)
  | some u => (some { u with locktime := none }, setLocktime s user_id none)

/-- Outcome of `POST /api/users/acquire` (`router.acquire_user_lock`). -/
inductive AcquireResult where
  | ok : User → AcquireResult
  | notFound : AcquireResult
  | alreadyLocked : AcquireResult
deriving DecidableEq, Repr

/-- HTTP status the router attaches to each acquire outcome. -/
def acquireStatus : AcquireResult → Nat
  | .ok _ => 200
  | .notFound => 404
  | .alreadyLocked => 423

/-- `router.acquire_user_lock`: call `crud.acquire_lock`; on `None`,
re-fetch the row to distinguish 404 (absent) from 423 (already locked). -/
def acquire_user_lock (s : Store) (user_id : Nat) (now : Nat) :
    AcquireResult × Store :=
  match acquire_lock s user_id now with
  | (some u, s1) => (.ok u, s1)
  | (none, s1) =>
    match get_user_by_id s1 user_id with
    | none => (.notFound, s1)
    | some _ => (.alreadyLocked, s1)

/-- Outcome of `POST /api/users/release` (`router.release_user_lock`). -/
inductive ReleaseResult where
  | ok : User → ReleaseResult
  | notFound : ReleaseResult
deriving DecidableEq, Repr

/-- HTTP status the router attaches to each release outcome. -/
def releaseStatus : ReleaseResult → Nat
  | .ok _ => 200
  | .notFound => 404

/-- `router.release_user_lock`: call `crud.release_lock`; `None` becomes 404,
otherwise 200 with the (now free) account. -/
def release_user_lock (s : Store) (user_id : Nat) : ReleaseResult × Store :=
  match release_lock s user_id with
  | (some u, s1) => (.ok u, s1)
  | (none, s1) => (.notFound, s1)

/-- Outcome of `POST /api/register` (`router.register_user`). -/
inductive RegisterResult where
  | created : User → RegisterResult
  | duplicateLogin : RegisterResult
deriving DecidableEq, Repr

/-- HTTP status the router attaches to each register outcome: 201 on
creation, the `IntegrityError` handler maps a duplicate login to 400. -/
def registerStatus : RegisterResult → Nat
  | .created _ => 201
  | .duplicateLogin => 400

/-- `router.register_user`: call `crud.create_user`; the `IntegrityError`
raised on a duplicate login is caught and turned into the structured
duplicate outcome, leaving the store unchanged. -/
def register_user (hash : String → String) (s : Store) (ud : UserCreate)
    (new_id : Nat) (now : Nat) : RegisterResult × Store :=
  match create_user hash s ud new_id now with
  | some (u, s1) => (.created u, s1)
  | none => (.duplicateLogin, s)

/-- `auth.authenticate_user`: look up by login; absent → `None`; present but
the external verifier rejects the password against the stored hash → `None`;
otherwise the account. -/
def authenticate_user (verify : String → String → Bool) (s : Store)
    (login : String) (password : String) : Option User :=
  match get_user_by_login s login with
  | none => none
  | some u => if verify password u.password then some u else none

/-- `schemas.TokenData`: the payload extracted from a decoded token. -/
structure TokenData where
  login : Option String
deriving DecidableEq, Repr

/-- A bearer token as seen through the external JWT codec: `valid` is the
codec's verdict (`jwt.decode` raises `JWTError` on a tampered or expired
token, modelled as `valid = false`), `sub` is the subject claim of the
payload (`payload.get("sub")`). -/
structure EncodedToken where
  sub : Option String
  valid : Bool
deriving DecidableEq, Repr

/-- `auth.decode_access_token`: `jwt.decode` inside `try/except JWTError`
(failure → `None`); a payload with no `sub` claim → `None`; otherwise
`TokenData(login=login)`. -/
def decode_access_token (tok : EncodedToken) : Option TokenData :=
  if tok.valid then
    match tok.sub with
    | none => none
    | some l => some { login := some l }
  else
    none

/-- Outcome of resolving identity on a protected route. -/
inductive AuthOutcome where
  | ok : User → AuthOutcome
  | httpError : Nat → String → AuthOutcome
deriving DecidableEq, Repr

/-- `auth.get_current_user`: decode the bearer token; if decoding failed or
the payload carries no login, raise `credentials_exception`; otherwise look
the login up in the store and raise the very same `credentials_exception`
when no account matches. -/
def get_current_user (s : Store) (tok : EncodedToken) : AuthOutcome :=
  match decode_access_token tok with
  | none => .httpError 401 "Could not validate credentials"
  | some td =>
    match td.login with
    | none => .httpError 401 "Could not validate credentials"
    | some l =>
      match get_user_by_login s l with
      | none => .httpError 401 "Could not validate credentials"
      | some u => .ok u

/-- `Settings.ACCESS_TOKEN_EXPIRE_MINUTES` (`app/config.py`). -/
def ACCESS_TOKEN_EXPIRE_MINUTES : Int := 30

/-- Python truthiness of an `Optional[timedelta]` (seconds): `None` and the
zero timedelta are falsy, every other timedelta is truthy. -/
def timedeltaTruthy : Option Int → Bool
  | none => false
  | some d => d != 0

/-- The `exp` claim computed by `auth.create_access_token` (seconds since
the issue instant `now`): `if expires_delta: expire = now + expires_delta
else: expire = now + timedelta(minutes=settings.ACCESS_TOKEN_EXPIRE_MINUTES)`. -/
def create_access_token_exp (now : Int) (expires_delta : Option Int) : Int :=
  if timedeltaTruthy expires_delta then
    now + expires_delta.getD 0
  else
    now + ACCESS_TOKEN_EXPIRE_MINUTES * 60

/-- `schemas.UserResponse`: the serialized account shape — every column of
the row except the credential hash. -/
structure UserResponse where
  id : Nat
  created_at : Nat
  login : String
  project_id : Nat
  env : String
  domain : String
  locktime : Option Nat
deriving DecidableEq, Repr

/-- Serialization of a row through `response_model=UserResponse`
(`from_attributes=True`): field-by-field copy, no `password` field. -/
def userResponse (u : User) : UserResponse :=
  { id := u.id, created_at := u.created_at, login := u.login
    project_id := u.project_id, env := u.env, domain := u.domain
    locktime := u.locktime }

/-- Serialization of an acquire outcome body: only the 200 outcome carries
an account body. -/
def serializeAcquire : AcquireResult → Option UserResponse
  | .ok u => some (userResponse u)
  | .notFound => none
  | .alreadyLocked => none

/-- Rewrite every stored credential hash to `p` — two stores related by
`maskPasswords` differ only in credential hashes. -/
def maskPasswords (s : Store) (p : String) : Store :=
  s.map (fun u => { u with password := p })

/-- The `users.login` unique index (`app/users/models.py`): no two rows
share a login. -/
def UniqueLogins (s : Store) : Prop :=
  (s.map (fun u => u.login)).Nodup

instance (s : Store) : Decidable (UniqueLogins s) := by
  unfold UniqueLogins; infer_instance

/-- The `users.id` primary key: no two rows share an id. -/
def UniqueIds (s : Store) : Prop :=
  (s.map (fun u => u.id)).Nodup

instance (s : Store) : Decidable (UniqueIds s) := by
  unfold UniqueIds; infer_instance

/-- Every column of a row except the mutable `locktime`. -/
def frameOf (u : User) : Nat × Nat × String × String × Nat × String × String :=
  (u.id, u.created_at, u.login, u.password, u.project_id, u.env, u.domain)

lemma frameOf_setLocktime (s : Store) (i : Nat) (v : Option Nat) :
    (setLocktime s i v).map frameOf = s.map frameOf := by
  unfold setLocktime
  rw [List.map_map]
  apply List.map_congr_left
  intro u _
  by_cases h : u.id = i <;> simp [h, frameOf]

lemma login_setLocktime (s : Store) (i : Nat) (v : Option Nat) :
    (setLocktime s i v).map (fun u => u.login) = s.map (fun u => u.login) := by
  unfold setLocktime
  rw [List.map_map]
  apply List.map_congr_left
  intro u _
  by_cases h : u.id = i <;> simp [h]

lemma find?_append_of_none {α : Type} (p : α → Bool) (l₁ l₂ : List α)
    (h : l₁.find? p = none) : (l₁ ++ l₂).find? p = l₂.find? p := by
  induction l₁ with
  | nil => rfl
  | cons x xs ih =>
    by_cases hx : p x
    · rw [List.find?_cons_of_pos _ hx] at h
      exact absurd h (by simp)
    · rw [List.find?_cons_of_neg _ (by simpa using hx)] at h
      rw [List.cons_append, List.find?_cons_of_neg _ (by simpa using hx)]
      exact ih h

lemma id_of_find? (s : Store) (user_id : Nat) (u : User)
    (h : get_user_by_id s user_id = some u) : u.id = user_id := by
  have := List.find?_some h
  simpa using this

/-- A row whose `locktime` is already null is unchanged by clearing it. -/
lemma set_locktime_none_self (u : User) (h : u.locktime = none) :
    { u with locktime := none } = u := by
  cases u
  simp_all

/-- Clearing the lock of a row that is already free leaves the table
unchanged (ids being a primary key, no second row is touched). -/
lemma setLocktime_none_of_free (s : Store) (user_id : Nat) (u : User)
    (hids : UniqueIds s) (hfind : get_user_by_id s user_id = some u)
    (hfree : u.locktime = none) :
    setLocktime s user_id none = s := by
  induction s with
  | nil => simp [get_user_by_id] at hfind
  | cons x xs ih =>
    have hids' : UniqueIds xs ∧ x.id ∉ xs.map (fun v => v.id) := by
      unfold UniqueIds at hids ⊢
      simpa [And.comm] using hids
    by_cases hx : x.id = user_id
    · have hxu : x = u := by
        have : get_user_by_id (x :: xs) user_id = some x := by
          unfold get_user_by_id
          exact List.find?_cons_of_pos _ (by simpa using hx)
        have := this.symm.trans hfind
        simpa using this
      unfold setLocktime
      rw [List.map_cons]
      have hhead :
          (if x.id == user_id then { x with locktime := none } else x) = x := by
        rw [if_pos (by simpa using hx), hxu, set_locktime_none_self u hfree, ← hxu]
      rw [hhead]
      have htail :
          xs.map (fun v => if v.id == user_id then { v with locktime := none } else v)
            = xs.map id := by
        apply List.map_congr_left
        intro v hv
        have hne : v.id ≠ x.id := by
          intro hcontra
          exact hids'.2 (by
            rw [← hcontra]
            exact List.mem_map_of_mem _ hv)
        rw [if_neg (by simpa [hx] using fun hvv => hne (hvv.trans hx.symm))]
        rfl
      rw [htail, List.map_id]
    · have hfind' : get_user_by_id xs user_id = some u := by
        unfold get_user_by_id at hfind ⊢
        rwa [List.find?_cons_of_neg _ (by simpa using hx)] at hfind
      have := ih hids'.1 hfind'
      unfold setLocktime at this ⊢
      rw [List.map_cons, if_neg (by simpa using hx), this]

/-- A fixture: one free account. -/
def freeUser : User :=
  { id := 1, created_at := 0, login := "a@x.com", password := "h1"
    project_id := 7, env := "prod", domain := "regular", locktime := none }

/-- A fixture: the same account while held. -/
def lockedUser : User := { freeUser with locktime := some 3 }

/-- Claim C8: the frame condition of the lock operations — both `acquire_lock` and
`release_lock` leave every column other than `locktime` (id, created_at,
login, credential hash, project_id, env, domain) of every row unchanged,
whatever the store and the targeted id. -/
theorem lock_ops_frame (s : Store) (user_id now : Nat) :
    ((acquire_lock s user_id now).2).map frameOf = s.map frameOf ∧
    ((release_lock s user_id).2).map frameOf = s.map frameOf := by
  constructor
  · unfold acquire_lock acquire_lock_read
    cases h : get_user_by_id s user_id with
    | none => rfl
    | some u =>
      unfold acquire_lock_commit
      by_cases hl : u.locktime.isSome <;> simp [hl, frameOf_setLocktime]
  · unfold release_lock
    cases h : get_user_by_id s user_id with
    | none => rfl
    | some u => simp [frameOf_setLocktime]

/-- Claim C10: acquire failure atomicity — whenever `acquire_lock` returns `None`
(and hence whenever the route reports 404 or 423), the store is exactly the
pre-state: both failure checks fire before any write. -/
theorem acquire_failure_unchanged (s : Store) (user_id now : Nat) :
    ((acquire_lock s user_id now).1 = none →
      (acquire_lock s user_id now).2 = s) ∧
    ((acquire_user_lock s user_id now).1 = .notFound →
      (acquire_user_lock s user_id now).2 = s) ∧
    ((acquire_user_lock s user_id now).1 = .alreadyLocked →
      (acquire_user_lock s user_id now).2 = s) := by
  unfold acquire_user_lock acquire_lock acquire_lock_read acquire_lock_commit
  cases h : get_user_by_id s user_id with
  | none => simp [h]
  | some u =>
    by_cases hl : u.locktime.isSome <;> simp [hl, h]

/-- Claim C10 witness: on a store with no account 1 and on a store where account 1
is already held, the failed acquire leaves the store untouched. -/
theorem acquire_failure_unchanged_witness :
    (acquire_lock [] 1 5).2 = [] ∧
    (acquire_user_lock [lockedUser] 1 5).2 = [lockedUser] :=
  ⟨(acquire_failure_unchanged [] 1 5).1 rfl,
   (acquire_failure_unchanged [lockedUser] 1 5).2.2 rfl⟩

/-- Claim C2: the acquire route realises exactly the three specified outcomes —
no row with the id gives 404 with the store unchanged; an already-held row
gives 423 with the store unchanged; a free row gives 200, the returned
account being the row with `locktime` set to the current time. -/
theorem acquire_user_lock_trichotomy (s : Store) (user_id now : Nat) :
    (get_user_by_id s user_id = none →
      acquire_user_lock s user_id now = (.notFound, s)) ∧
    (∀ u, get_user_by_id s user_id = some u → u.locktime.isSome = true →
      acquire_user_lock s user_id now = (.alreadyLocked, s)) ∧
    (∀ u, get_user_by_id s user_id = some u → u.locktime = none →
      acquire_user_lock s user_id now =
        (.ok { u with locktime := some now }, setLocktime s user_id (some now))) ∧
    acquireStatus .notFound = 404 ∧
    acquireStatus .alreadyLocked = 423 ∧
    (∀ u, acquireStatus (.ok u) = 200) := by
  refine ⟨?_, ?_, ?_, rfl, rfl, fun u => rfl⟩
  · intro h
    unfold acquire_user_lock acquire_lock acquire_lock_read
    simp [h]
  · intro u h hl
    unfold acquire_user_lock acquire_lock acquire_lock_read acquire_lock_commit
    simp [h, hl]
  · intro u h hl
    have hid : u.id = user_id := id_of_find? s user_id u h
    unfold acquire_user_lock acquire_lock acquire_lock_read acquire_lock_commit
    simp [h, hl, hid]

/-- Claim C2 witness: on the one-account fixtures each of the three outcomes is
realised — 404 on the empty store, 423 on the held account, 200 with the
lock stamped on the free account. -/
theorem acquire_user_lock_trichotomy_witness :
    acquire_user_lock [] 1 5 = (.notFound, []) ∧
    acquire_user_lock [lockedUser] 1 5 = (.alreadyLocked, [lockedUser]) ∧
    acquire_user_lock [freeUser] 1 5 =
      (.ok { freeUser with locktime := some 5 },
        setLocktime [freeUser] 1 (some 5)) :=
  ⟨(acquire_user_lock_trichotomy [] 1 5).1 rfl,
   (acquire_user_lock_trichotomy [lockedUser] 1 5).2.1 lockedUser rfl rfl,
   (acquire_user_lock_trichotomy [freeUser] 1 5).2.2.1 freeUser rfl rfl⟩

/-- Claim C3: release idempotence — releasing an absent id is the only failure
(404, store unchanged); releasing an existing account succeeds (200) whether
held or free, returns the account with `locktime` null, and when the account
was already free the store is left exactly as it was. -/
theorem release_lock_idempotent (s : Store) (user_id : Nat)
    (hids : UniqueIds s) :
    (get_user_by_id s user_id = none →
      release_user_lock s user_id = (.notFound, s)) ∧
    (∀ u, get_user_by_id s user_id = some u →
      release_user_lock s user_id =
        (.ok { u with locktime := none }, setLocktime s user_id none)) ∧
    (∀ u, get_user_by_id s user_id = some u → u.locktime = none →
      (release_user_lock s user_id).2 = s) ∧
    releaseStatus .notFound = 404 ∧
    (∀ u, releaseStatus (.ok u) = 200) := by
  refine ⟨?_, ?_, ?_, rfl, fun u => rfl⟩
  · intro h
    unfold release_user_lock release_lock
    simp [h]
  · intro u h
    unfold release_user_lock release_lock
    simp [h]
  · intro u h hfree
    unfold release_user_lock release_lock
    simp [h, setLocktime_none_of_free s user_id u hids h hfree]

/-- Claim C3 witness: on the one-account fixtures — 404 on the empty store,
success clearing the held account, and the no-op success on the already-free
account leaving the store identical. -/
theorem release_lock_idempotent_witness :
    release_user_lock [] 1 = (.notFound, []) ∧
    release_user_lock [lockedUser] 1 =
      (.ok { lockedUser with locktime := none }, setLocktime [lockedUser] 1 none) ∧
    (release_user_lock [freeUser] 1).2 = [freeUser] :=
  ⟨(release_lock_idempotent [] 1 (by decide)).1 rfl,
   (release_lock_idempotent [lockedUser] 1 (by decide)).2.1 lockedUser rfl,
   (release_lock_idempotent [freeUser] 1 (by decide)).2.2.1 freeUser rfl rfl⟩

/-- Claim C1: the acquire operation is NOT an atomic compare-and-swap.
`crud.acquire_lock` suspends between the row fetch and the commit
(`await get_user_by_id`, then `await session.commit()`), and the free-ness
check inspects the row object fetched before the suspension.  In the
interleaving read₁ · read₂ · commit₁ · commit₂ of two concurrent acquires
of the same free account — each request holding its own session — both
callers fetch the free row, caller 1 commits and observes success, and
caller 2, still holding the stale free row, also commits and observes
success: two simultaneous lock holders, the second commit silently
overwriting the first caller's lock timestamp. -/
theorem acquire_lock_race_two_holders :
    acquire_lock_read [freeUser] 1 = some freeUser ∧
    (acquire_lock_commit [freeUser] freeUser 10).1 =
      some { freeUser with locktime := some 10 } ∧
    (acquire_lock_commit (acquire_lock_commit [freeUser] freeUser 10).2
        freeUser 20).1 =
      some { freeUser with locktime := some 20 } ∧
    (acquire_lock_commit (acquire_lock_commit [freeUser] freeUser 10).2
        freeUser 20).2 =
      [{ freeUser with locktime := some 20 }] :=
  ⟨rfl, rfl, rfl, rfl⟩

/-- Claim C6: uniform unauthorized — when the token fails to decode, and when the
decoded subject does not resolve to a stored account, `get_current_user`
reports the very same error; and every error it can ever report is 401 with
detail "Could not validate credentials". -/
theorem get_current_user_uniform_unauthorized (s : Store)
    (tok : EncodedToken) :
    (decode_access_token tok = none →
      get_current_user s tok = .httpError 401 "Could not validate credentials") ∧
    (∀ l, decode_access_token tok = some { login := some l } →
      get_user_by_login s l = none →
      get_current_user s tok = .httpError 401 "Could not validate credentials") ∧
    (∀ st d, get_current_user s tok = .httpError st d →
      st = 401 ∧ d = "Could not validate credentials") := by
  refine ⟨?_, ?_, ?_⟩
  · intro h
    unfold get_current_user
    simp [h]
  · intro l hdec hfind
    unfold get_current_user
    simp [hdec, hfind]
  · intro st d h
    unfold get_current_user at h
    split at h
    · injection h with h1 h2
      exact ⟨h1.symm, h2.symm⟩
    · split at h
      · injection h with h1 h2
        exact ⟨h1.symm, h2.symm⟩
      · split at h
        · injection h with h1 h2
          exact ⟨h1.symm, h2.symm⟩
        · exact absurd h (by simp)

/-- Claim C6 witness: a tampered token over the fixture store and a well-signed
token whose subject matches no account both yield exactly the 401
credentials error. -/
theorem get_current_user_uniform_unauthorized_witness :
    get_current_user [freeUser] { sub := some "a@x.com", valid := false } =
      .httpError 401 "Could not validate credentials" ∧
    get_current_user [] { sub := some "a@x.com", valid := true } =
      .httpError 401 "Could not validate credentials" :=
  ⟨(get_current_user_uniform_unauthorized [freeUser]
      { sub := some "a@x.com", valid := false }).1 rfl,
   (get_current_user_uniform_unauthorized []
      { sub := some "a@x.com", valid := true }).2.1 "a@x.com" rfl rfl⟩

/-- Claim C9 counterexample: an explicit override of zero seconds is supplied,
yet the expiry is not the issue time plus that override — Python's
`if expires_delta:` is false for a zero timedelta, so the code silently
falls back to the 30-minute default (1800 s). -/
theorem create_access_token_exp_zero_override :
    create_access_token_exp 0 (some 0) = 1800 ∧
    ¬ create_access_token_exp 0 (some 0) = 0 + 0 := by
  constructor
  · decide
  · decide

/-- Claim C9 as amended: with no override, and likewise with a zero override
(falsy in Python), the expiry is the issue time plus the default
`ACCESS_TOKEN_EXPIRE_MINUTES = 30` minutes; with any nonzero override the
expiry is the issue time plus that override. -/
theorem create_access_token_exp_spec (now d : Int) :
    create_access_token_exp now none = now + 30 * 60 ∧
    (d ≠ 0 → create_access_token_exp now (some d) = now + d) ∧
    create_access_token_exp now (some 0) = now + 30 * 60 := by
  refine ⟨rfl, ?_, rfl⟩
  intro hd
  unfold create_access_token_exp timedeltaTruthy
  simp [hd]

/-- Claim C9 witness: a token issued at instant 100 with a one-minute override
expires at 160. -/
theorem create_access_token_exp_spec_witness :
    create_access_token_exp 100 (some 60) = 100 + 60 :=
  (create_access_token_exp_spec 100 60).2.1 (by decide)

lemma get_user_by_id_mask (s : Store) (p : String) (i : Nat) :
    get_user_by_id (maskPasswords s p) i
      = (get_user_by_id s i).map (fun u => { u with password := p }) := by
  unfold maskPasswords get_user_by_id
  induction s with
  | nil => rfl
  | cons x xs ih =>
    rw [List.map_cons]
    by_cases h : x.id = i
    · rw [List.find?_cons_of_pos _ (by simpa using h),
          List.find?_cons_of_pos _ (by simpa using h)]
      rfl
    · rw [List.find?_cons_of_neg _ (by simpa using h),
          List.find?_cons_of_neg _ (by simpa using h)]
      exact ih

/-- Claim C7: no read path serializes the credential hash — serialization through
`UserResponse` is insensitive to the stored hash: one account, the listing
route, and the acquire route all produce identical response bodies on two
stores that differ only in every credential hash. -/
theorem userResponse_hides_credential_hash :
    (∀ (u : User) (p : String),
      userResponse { u with password := p } = userResponse u) ∧
    (∀ (s : Store) (p : String),
      (get_all_users (maskPasswords s p)).map userResponse
        = (get_all_users s).map userResponse) ∧
    (∀ (s : Store) (p : String) (user_id now : Nat),
      serializeAcquire (acquire_user_lock (maskPasswords s p) user_id now).1
        = serializeAcquire (acquire_user_lock s user_id now).1) := by
  refine ⟨fun u p => rfl, ?_, ?_⟩
  · intro s p
    unfold get_all_users maskPasswords
    rw [List.map_map]
    rfl
  · intro s p user_id now
    unfold acquire_user_lock acquire_lock acquire_lock_read
    rw [get_user_by_id_mask]
    cases h : get_user_by_id s user_id with
    | none => simp [get_user_by_id_mask, h]
    | some u =>
      by_cases hl : u.locktime.isSome
      · simp [acquire_lock_commit, get_user_by_id_mask, h, hl]
      · simp [acquire_lock_commit, get_user_by_id_mask, h, hl,
              serializeAcquire, userResponse]

/-- Claim C4: registration / authentication round trip — under the external
hasher/verifier contract (`verify p (hash q)` succeeds exactly when the
passwords agree), a successful registration yields an account that
authenticates under the registered login and password (same account, whose
id is the one assigned at creation), while any other password and any
unregistered login authenticate to `None`. -/
theorem register_authenticate_round_trip (hash : String → String)
    (verify : String → String → Bool)
    (hcontract : ∀ p q, verify p (hash q) = true ↔ p = q)
    (s : Store) (ud : UserCreate) (new_id now : Nat) (u : User) (s1 : Store)
    (hcreate : create_user hash s ud new_id now = some (u, s1)) :
    authenticate_user verify s1 ud.login ud.password = some u ∧
    u.id = new_id ∧
    (∀ p, p ≠ ud.password → authenticate_user verify s1 ud.login p = none) ∧
    (∀ l pw, get_user_by_login s1 l = none →
      authenticate_user verify s1 l pw = none) := by
  unfold create_user at hcreate
  by_cases hdup : (get_user_by_login s ud.login).isSome
  · rw [if_pos hdup] at hcreate
    exact absurd hcreate (by simp)
  · rw [if_neg hdup] at hcreate
    have hnone : get_user_by_login s ud.login = none := by
      simpa using hdup
    simp only [Option.some.injEq, Prod.mk.injEq] at hcreate
    obtain ⟨hu, hs⟩ := hcreate
    subst hu
    subst hs
    have hfind :
        get_user_by_login (s ++ [({ id := new_id, created_at := now,
                                    login := ud.login,
                                    password := hash ud.password,
                                    project_id := ud.project_id,
                                    env := ud.env, domain := ud.domain,
                                    locktime := none } : User)]) ud.login =
          some ({ id := new_id, created_at := now, login := ud.login,
                  password := hash ud.password,
                  project_id := ud.project_id,
                  env := ud.env, domain := ud.domain,
                  locktime := none } : User) := by
      unfold get_user_by_login at hnone ⊢
      rw [find?_append_of_none _ s _ hnone]
      simp
    refine ⟨?_, rfl, ?_, ?_⟩
    · unfold authenticate_user
      rw [hfind]
      have hv : verify ud.password (hash ud.password) = true :=
        (hcontract ud.password ud.password).mpr rfl
      simp [hv]
    · intro p hp
      unfold authenticate_user
      rw [hfind]
      have hv : verify p (hash ud.password) = false := by
        cases hvb : verify p (hash ud.password)
        · rfl
        · exact absurd ((hcontract p ud.password).mp hvb) hp
      simp [hv]
    · intro l pw hnil
      unfold authenticate_user
      rw [hnil]

/-- Fixture registration payload matching the spec's scenario. -/
def wUserCreate : UserCreate :=
  { login := "a@x.com", project_id := 7, env := "prod", domain := "regular"
    password := "password123" }

/-- The row created from `wUserCreate` under the identity hasher. -/
def wUser : User :=
  { id := 1, created_at := 0, login := "a@x.com", password := "password123"
    project_id := 7, env := "prod", domain := "regular", locktime := none }

/-- Claim C4 witness: registering the scenario account on the empty store and
authenticating it — the right password yields the account, a wrong one
yields `None`. -/
theorem register_authenticate_round_trip_witness :
    authenticate_user (fun a b => a == b) [wUser] "a@x.com" "password123"
      = some wUser ∧
    authenticate_user (fun a b => a == b) [wUser] "a@x.com" "hunter2xyz"
      = none := by
  have h := register_authenticate_round_trip (fun q => q) (fun a b => a == b)
    (by intro p q; simp) [] wUserCreate 1 0 wUser [wUser] rfl
  exact ⟨h.1, h.2.2.1 "hunter2xyz" (by decide)⟩

lemma uniqueLogins_setLocktime (s : Store) (i : Nat) (v : Option Nat)
    (h : UniqueLogins s) : UniqueLogins (setLocktime s i v) := by
  unfold UniqueLogins at h ⊢
  rwa [login_setLocktime]

/-- Claim C5: login uniqueness — when no two stored logins coincide, that
invariant is preserved by registration and by both lock operations, and
registering an already-present login is answered by the structured
duplicate-login outcome, mapped to 400, with the store untouched. -/
theorem login_uniqueness (hash : String → String) (s : Store)
    (ud : UserCreate) (new_id now user_id t : Nat)
    (huniq : UniqueLogins s) :
    UniqueLogins (register_user hash s ud new_id now).2 ∧
    UniqueLogins (acquire_lock s user_id t).2 ∧
    UniqueLogins (release_lock s user_id).2 ∧
    ((get_user_by_login s ud.login).isSome = true →
      register_user hash s ud new_id now = (.duplicateLogin, s) ∧
      registerStatus .duplicateLogin = 400) := by
  refine ⟨?_, ?_, ?_, ?_⟩
  · unfold register_user create_user
    by_cases hdup : (get_user_by_login s ud.login).isSome
    · simpa [hdup] using huniq
    · have hnone : get_user_by_login s ud.login = none := by
        simpa using hdup
      have hmem : ud.login ∉ s.map (fun u => u.login) := by
        intro hmem
        obtain ⟨x, hx, hxl⟩ := List.mem_map.mp hmem
        have hfx := List.find?_eq_none.mp hnone x hx
        simp [hxl] at hfx
      unfold UniqueLogins at huniq ⊢
      simp [hdup, List.nodup_append, huniq, hmem]
  · unfold acquire_lock acquire_lock_read
    cases h : get_user_by_id s user_id with
    | none => exact huniq
    | some u =>
      unfold acquire_lock_commit
      by_cases hl : u.locktime.isSome
      · simpa [hl] using huniq
      · simpa [hl] using uniqueLogins_setLocktime s u.id (some t) huniq
  · unfold release_lock
    cases h : get_user_by_id s user_id with
    | none => exact huniq
    | some u => exact uniqueLogins_setLocktime s user_id none huniq
  · intro hdup
    unfold register_user create_user
    exact ⟨by simp [hdup], rfl⟩

/-- Claim C5 witness: on the one-account store, re-registering the same login is
told apart as the duplicate outcome with status 400 and the store is
untouched, while registering a fresh login preserves uniqueness. -/
theorem login_uniqueness_witness :
    (register_user (fun q => q) [wUser] wUserCreate 2 9 = (.duplicateLogin, [wUser]) ∧
      registerStatus .duplicateLogin = 400) ∧
    UniqueLogins (register_user (fun q => q) [wUser]
      { wUserCreate with login := "b@x.com" } 2 9).2 :=
  ⟨(login_uniqueness (fun q => q) [wUser] wUserCreate 2 9 1 5 (by decide)).2.2.2
      (by decide),
   (login_uniqueness (fun q => q) [wUser]
      { wUserCreate with login := "b@x.com" } 2 9 1 5 (by decide)).1⟩

end Botoferma
